import Mathlib

/-!
Verification of the multi-file linter statistics engine
(tools/linter/adapters/_linter/python_info.py, multi_file.py and
tools/linter/adapters/multi_linter.py) against its natural-language
specification.

The development shallowly embeds the Python source: Python strings become
Lean `String`, Python `int` becomes `Int` (counts that are only ever
incremented use `Nat` where noted), `Counter`/`dict` become insertion-ordered
association lists, and fallible Python code (assert / raised exceptions)
returns `Except String`.  Each helper mirrors one Python builtin or one
function of the source, named after it.
-/

set_option maxRecDepth 10000

namespace Linter

/-! ## Python string builtins, embedded over `List Char` -/

/-- Python whitespace characters used by str.split and str.strip. -/
def isPySpace (c : Char) : Bool :=
  c = ' ' || c = '\t' || c = '\n' || c = '\r' || c = '\x0b' || c = '\x0c'

/-- Index of the first occurrence of `pat` as a sublist of the second list
(the search Python str.partition and the `in` operator perform). -/
def subFind (pat : List Char) : List Char → Option Nat
  | [] => if List.isPrefixOf pat [] then some 0 else none
  | c :: t =>
    if List.isPrefixOf pat (c :: t) then some 0
    else (subFind pat t).map (· + 1)

/-- Python `sub in s` (substring containment). -/
def pyContains (s sub : String) : Bool := (subFind sub.data s.data).isSome

/-- Python str.partition on character lists. -/
def pyPartitionL (l pat : List Char) : List Char × List Char × List Char :=
  match subFind pat l with
  | some i => (l.take i, pat, l.drop (i + pat.length))
  | none => (l, [], [])

/-- Python s.partition(sep): (before, sep, after) at the first occurrence,
or (s, "", "") when sep does not occur. -/
def pyPartition (s sep : String) : String × String × String :=
  let r := pyPartitionL s.data sep.data
  (String.mk r.1, String.mk r.2.1, String.mk r.2.2)

/-- Helper for Python s.split(",") : accumulates the current piece. -/
def splitCommaAux : List Char → List Char → List (List Char)
  | [], acc => [acc.reverse]
  | c :: t, acc =>
    if c = ',' then acc.reverse :: splitCommaAux t [] else splitCommaAux t (c :: acc)

/-- Python s.split(","): separator-based split, keeping empty pieces. -/
def pySplitComma (s : String) : List String :=
  (splitCommaAux s.data []).map String.mk

/-- Helper for Python s.split() : split on whitespace runs, dropping empties. -/
def splitWsAux : List Char → List Char → List (List Char)
  | [], acc => if acc.isEmpty then [] else [acc.reverse]
  | c :: t, acc =>
    if isPySpace c then
      if acc.isEmpty then splitWsAux t [] else acc.reverse :: splitWsAux t []
    else splitWsAux t (c :: acc)

/-- Python s.split() with no argument: whitespace split, no empty pieces. -/
def pySplitWs (s : String) : List String :=
  (splitWsAux s.data []).map String.mk

/-- Python s.strip(): remove leading and trailing whitespace. -/
def pyStrip (s : String) : String :=
  String.mk (((s.data.dropWhile isPySpace).reverse.dropWhile isPySpace).reverse)

/-- Python s.lstrip("."): remove leading dots. -/
def pyLstripDots (s : String) : String :=
  String.mk (s.data.dropWhile (· = '.'))

/-- Python s.startswith(pre). -/
def pyStartswith (s pre : String) : Bool := List.isPrefixOf pre.data s.data

/-- Python s.endswith(suf). -/
def pyEndswith (s suf : String) : Bool := List.isSuffixOf suf.data s.data

/-- Python s.replace(old, new) for single-character old and new. -/
def pyReplaceChar (s : String) (a b : Char) : String :=
  String.mk (s.data.map fun c => if c = a then b else c)

/-- Python len(s). -/
def pyLen (s : String) : Nat := s.data.length

/-- Python sorted() for strings: stable ascending sort (insertion sort). -/
def insertSorted (x : String) : List String → List String
  | [] => [x]
  | y :: t => if x ≤ y then x :: y :: t else y :: insertSorted x t

/-- Python sorted(list-of-str). -/
def pySorted (l : List String) : List String := l.foldr insertSorted []

/-! ## multi_file.py: `_split_import` and relative-import resolution -/

/-- Embedding of `_split_import` (multi_file.py, lines 88-114).  Python
asserts become `Except.error`.  The line first has any comment tail removed,
is rejected (empty result) when it contains a wildcard, and is then split
into a source clause and a symbols clause around the word "import". -/
def _split_import (line0 : String) : Except String (List String) :=
  let line := (pyPartition line0 "#").1
  if pyContains line "*" then Except.ok []
  else
    let p := pyPartition line " import "
    let step : Except String (String × String) :=
      if p.2.2 ≠ "" then
        -- from-form: `_from, *src = source.split()` with two asserts
        match pySplitWs p.1 with
        | [] => Except.error ("ValueError: not enough values to unpack: " ++ line)
        | f :: src =>
          if f ≠ "from" then Except.error ("AssertionError: " ++ line)
          else if ¬ (src.length = 1 ∨ (src.length = 2 ∧ src.headD "" = ".")) then
            Except.error ("AssertionError: " ++ line)
          else Except.ok (String.join src, p.2.2)
      else
        -- plain form: source must be empty before the word "import"
        let q := pyPartition line "import "
        if q.1 ≠ "" then Except.error ("AssertionError: " ++ line)
        else Except.ok ("", q.2.2)
    match step with
    | Except.error e => Except.error e
    | Except.ok (source, symbols0) =>
      let symbols := pyStrip (pyReplaceChar (pyReplaceChar symbols0 '(' ' ') ')' ' ')
      let dot := if source ≠ "" && !pyEndswith source "." then "." else ""
      let parts := (pySplitComma symbols).filterMap fun i =>
        match pySplitWs i with
        | [] => none
        | w :: _ => some w
      Except.ok (parts.map fun w => source ++ dot ++ w)

/-- Embedding of `to_absolute` (the closure inside `MultiFile.outgoing_imports`,
multi_file.py lines 47-54).  `parentParts` is `self._parent_parts`, the package
path of the directory holding the file.  Note the Python computes
`end = (1 - dot_count) or None` and slices `parent_parts[:end]`; for
`dot_count = 1` that keeps everything, otherwise it drops the last
`dot_count - 1` components, silently producing the empty list when
`dot_count - 1` exceeds the length. -/
def to_absolute (parentParts : List String) (module : String) : String :=
  if ¬ pyStartswith module "." then module
  else
    let root := pyLstripDots module
    let dot_count := pyLen module - pyLen root
    let kept :=
      if dot_count = 1 then parentParts
      else parentParts.take (parentParts.length - (dot_count - 1))
    String.intercalate "." (kept ++ [root])

/-- Import splitting followed by relative resolution inside a package,
exactly the pipeline `MultiFile.outgoing_imports` applies to one line
(without the final cross-line sort). -/
def splitResolve (parentParts : List String) (line : String) : Except String (List String) :=
  (_split_import line).map (List.map (to_absolute parentParts))

end Linter

deriving instance DecidableEq for Except

namespace Linter

/-! ## The Python `token` module (CPython 3.12 layout) and `keyword.kwlist` -/

namespace Tok

def ENDMARKER : Nat := 0
def NAME : Nat := 1
def NUMBER : Nat := 2
def STRING : Nat := 3
def NEWLINE : Nat := 4
def INDENT : Nat := 5
def DEDENT : Nat := 6
def LPAR : Nat := 7
def RPAR : Nat := 8
def LSQB : Nat := 9
def RSQB : Nat := 10
def COLON : Nat := 11
def COMMA : Nat := 12
def SEMI : Nat := 13
def PLUS : Nat := 14
def MINUS : Nat := 15
def STAR : Nat := 16
def SLASH : Nat := 17
def VBAR : Nat := 18
def AMPER : Nat := 19
def LESS : Nat := 20
def GREATER : Nat := 21
def EQUAL : Nat := 22
def DOT : Nat := 23
def PERCENT : Nat := 24
def LBRACE : Nat := 25
def RBRACE : Nat := 26
def EQEQUAL : Nat := 27
def NOTEQUAL : Nat := 28
def LESSEQUAL : Nat := 29
def GREATEREQUAL : Nat := 30
def TILDE : Nat := 31
def CIRCUMFLEX : Nat := 32
def LEFTSHIFT : Nat := 33
def RIGHTSHIFT : Nat := 34
def DOUBLESTAR : Nat := 35
def PLUSEQUAL : Nat := 36
def MINEQUAL : Nat := 37
def STAREQUAL : Nat := 38
def SLASHEQUAL : Nat := 39
def PERCENTEQUAL : Nat := 40
def AMPEREQUAL : Nat := 41
def VBAREQUAL : Nat := 42
def CIRCUMFLEXEQUAL : Nat := 43
def LEFTSHIFTEQUAL : Nat := 44
def RIGHTSHIFTEQUAL : Nat := 45
def DOUBLESTAREQUAL : Nat := 46
def DOUBLESLASH : Nat := 47
def DOUBLESLASHEQUAL : Nat := 48
def AT : Nat := 49
def ATEQUAL : Nat := 50
def RARROW : Nat := 51
def ELLIPSIS : Nat := 52
def COLONEQUAL : Nat := 53
def EXCLAMATION : Nat := 54
def OP : Nat := 55
def AWAIT : Nat := 56
def ASYNC : Nat := 57
def TYPE_IGNORE : Nat := 58
def TYPE_COMMENT : Nat := 59
def SOFT_KEYWORD : Nat := 60
def FSTRING_START : Nat := 61
def FSTRING_MIDDLE : Nat := 62
def FSTRING_END : Nat := 63
def COMMENT : Nat := 64
def NL : Nat := 65
def ERRORTOKEN : Nat := 66
def ENCODING : Nat := 67

end Tok

/-- token.EXACT_TOKEN_TYPES: canonical operator / punctuation symbol to its
exact token type. -/
def EXACT_TOKEN_TYPES : List (String × Nat) :=
  [("!", Tok.EXCLAMATION), ("!=", Tok.NOTEQUAL), ("%", Tok.PERCENT),
   ("%=", Tok.PERCENTEQUAL), ("&", Tok.AMPER), ("&=", Tok.AMPEREQUAL),
   ("(", Tok.LPAR), (")", Tok.RPAR), ("*", Tok.STAR), ("**", Tok.DOUBLESTAR),
   ("**=", Tok.DOUBLESTAREQUAL), ("*=", Tok.STAREQUAL), ("+", Tok.PLUS),
   ("+=", Tok.PLUSEQUAL), (",", Tok.COMMA), ("-", Tok.MINUS),
   ("-=", Tok.MINEQUAL), ("->", Tok.RARROW), (".", Tok.DOT),
   ("...", Tok.ELLIPSIS), ("/", Tok.SLASH), ("//", Tok.DOUBLESLASH),
   ("//=", Tok.DOUBLESLASHEQUAL), ("/=", Tok.SLASHEQUAL), (":", Tok.COLON),
   (":=", Tok.COLONEQUAL), (";", Tok.SEMI), ("<", Tok.LESS),
   ("<<", Tok.LEFTSHIFT), ("<<=", Tok.LEFTSHIFTEQUAL), ("<=", Tok.LESSEQUAL),
   ("=", Tok.EQUAL), ("==", Tok.EQEQUAL), (">", Tok.GREATER),
   (">=", Tok.GREATEREQUAL), (">>", Tok.RIGHTSHIFT),
   (">>=", Tok.RIGHTSHIFTEQUAL), ("@", Tok.AT), ("@=", Tok.ATEQUAL),
   ("[", Tok.LSQB), ("]", Tok.RSQB), ("^", Tok.CIRCUMFLEX),
   ("^=", Tok.CIRCUMFLEXEQUAL), ("\x7b", Tok.LBRACE), ("\x7d", Tok.RBRACE),
   ("|", Tok.VBAR), ("|=", Tok.VBAREQUAL), ("~", Tok.TILDE)]

/-- python_info.py line 13: INVERSE_TOKEN_TYPES maps an exact token type back
to its canonical symbol (and any non-exact type to nothing). -/
def INVERSE_TOKEN_TYPES (t : Nat) : Option String :=
  (EXACT_TOKEN_TYPES.find? fun kv => kv.2 == t).map fun kv => kv.1

/-- token.tok_name[t].lower() for the non-exact token types (the exact
operator types never reach this lookup in apply_token because
INVERSE_TOKEN_TYPES answers first). -/
def tokNamesLower : List (Nat × String) :=
  [(Tok.ENDMARKER, "endmarker"), (Tok.NAME, "name"), (Tok.NUMBER, "number"),
   (Tok.STRING, "string"), (Tok.NEWLINE, "newline"), (Tok.INDENT, "indent"),
   (Tok.DEDENT, "dedent"), (Tok.OP, "op"), (Tok.AWAIT, "await"),
   (Tok.ASYNC, "async"), (Tok.TYPE_IGNORE, "type_ignore"),
   (Tok.TYPE_COMMENT, "type_comment"), (Tok.SOFT_KEYWORD, "soft_keyword"),
   (Tok.FSTRING_START, "fstring_start"), (Tok.FSTRING_MIDDLE, "fstring_middle"),
   (Tok.FSTRING_END, "fstring_end"), (Tok.COMMENT, "comment"), (Tok.NL, "nl"),
   (Tok.ERRORTOKEN, "errortoken"), (Tok.ENCODING, "encoding")]

def tokNameLower (t : Nat) : String := (tokNamesLower.lookup t).getD ""

/-- keyword.kwlist of CPython 3.12; keyword.iskeyword tests membership. -/
def kwlist : List String :=
  ["False", "None", "True", "and", "as", "assert", "async", "await", "break",
   "class", "continue", "def", "del", "elif", "else", "except", "finally",
   "for", "from", "global", "if", "import", "in", "is", "lambda", "nonlocal",
   "not", "or", "pass", "raise", "return", "try", "while", "with", "yield"]

def iskeyword (s : String) : Bool := kwlist.contains s

end Linter

namespace Linter

/-! ## python_info.py: Counter, Ignores, ScopeInfo -/

/-- A Python `Counter[str]` / `dict[str, int]`: an insertion-ordered
association list, as CPython dicts are. -/
abbrev Counter := List (String × Nat)

/-- Current count of a key (0 when absent, as Counter lookups default). -/
def Counter.get (c : Counter) (k : String) : Nat :=
  match c with
  | [] => 0
  | (k', v) :: rest => if k' = k then v else Counter.get rest k

/-- Add `n` to the count of `k`, inserting at the end when absent (Python
dict update order). -/
def Counter.add (c : Counter) (k : String) (n : Nat) : Counter :=
  match c with
  | [] => [(k, n)]
  | (k', v) :: rest =>
    if k' = k then (k', v + n) :: rest else (k', v) :: Counter.add rest k n

/-- Python `counter[k] += 1`. -/
def Counter.incr (c : Counter) (k : String) : Counter := Counter.add c k 1

/-- Python Counter.update(other-counter): per-key addition. -/
def Counter.update (c other : Counter) : Counter :=
  other.foldl (fun acc kv => Counter.add acc kv.1 kv.2) c

/-- Python Counter.update(list-of-str): count each element once. -/
def Counter.updateList (c : Counter) (ks : List String) : Counter :=
  ks.foldl (fun acc k => Counter.incr acc k) c

/-- python_info.py line 21: placeholder for empty ignore code lists. -/
def EMPTY_IGNORES : String := "(None)"

/-- The `Ignores` dataclass (python_info.py lines 31-50): one counter per
suppression category, fields in declaration order mypy, noqa, type. -/
structure Ignores where
  mypy : Counter := ([] : List (String × Nat))
  noqa : Counter := ([] : List (String × Nat))
  type : Counter := ([] : List (String × Nat))
deriving DecidableEq, Inhabited

/-- Ignores.update (python_info.py lines 37-40). -/
def Ignores.update (self other : Ignores) : Ignores :=
  { mypy := self.mypy.update other.mypy
    noqa := self.noqa.update other.noqa
    type := self.type.update other.type }

/-- One iteration of the loop in Ignores.apply_line: partition `line` on the
marker; when found, take the part before the first "]", split on commas,
strip each piece, drop empties, and fall back to the EMPTY_IGNORES
placeholder when nothing remains. -/
def extractIgnores (line marker : String) : Option (List String) :=
  let p := pyPartition line marker
  if p.2.1 ≠ "" then
    let pieces := pySplitComma (pyPartition p.2.2 "]").1
    let igns := pieces.filterMap fun i =>
      let j := pyStrip i
      if j = "" then none else some j
    some (if igns.isEmpty then [EMPTY_IGNORES] else igns)
  else none

/-- Ignores.apply_line (python_info.py lines 42-50).  The loop over
`dc.fields(Ignores)` is unrolled in field order; the marker is
"# name: " plus, for the type field only, "ignore[". -/
def Ignores.apply_line (ig : Ignores) (line : String) : Ignores :=
  let ig := match extractIgnores line "# mypy: " with
    | some ks => { ig with mypy := ig.mypy.updateList ks }
    | none => ig
  let ig := match extractIgnores line "# noqa: " with
    | some ks => { ig with noqa := ig.noqa.updateList ks }
    | none => ig
  match extractIgnores line "# type: ignore[" with
  | some ks => { ig with type := ig.type.updateList ks }
  | none => ig

/-- A tokenize.TokenInfo restricted to the data apply_token reads: type,
string, and the line numbers tok.start[0] and tok.end[0]. -/
structure TokenInfo where
  type : Nat
  string : String
  startLine : Int
  endLine : Int
deriving DecidableEq, Inhabited

/-- The `ScopeInfo` dataclass (python_info.py lines 53-68), fields in
declaration order.  Python ints are `Int` (line_start is initialized to the
sentinel -1). -/
structure ScopeInfo where
  display_name : String := ""
  block_count : Int := 0
  line_start : Int := -1
  line_count : Int := 0
  token_count : Int := 0
  comment_total_length : Int := 0
  keyword_count : Counter := ([] : List (String × Nat))
  op_count : Counter := ([] : List (String × Nat))
  ignores : Ignores := {}
  children : List Nat := []
deriving DecidableEq, Inhabited

/-- ScopeInfo.apply_token (python_info.py lines 86-102). -/
def ScopeInfo.apply_token (info : ScopeInfo) (tok : TokenInfo) : ScopeInfo :=
  let info := { info with token_count := info.token_count + 1 }
  let s := tok.string
  let t := tok.type
  let e := tok.endLine
  let info :=
    if info.line_start = -1 then { info with line_start := tok.startLine } else info
  let info := { info with line_count := e - info.line_start }
  let op_name := (INVERSE_TOKEN_TYPES t).getD (tokNameLower t)
  let info := { info with op_count := info.op_count.incr op_name }
  if t == Tok.NAME && iskeyword s then
    { info with keyword_count := info.keyword_count.incr s }
  else if t == Tok.COMMENT then
    { info with
        comment_total_length :=
          info.comment_total_length + (pyLen (pyPartition s "#").2.2 : Int),
        ignores := info.ignores.apply_line s }
  else info

/-! ## ScopeInfo.update (python_info.py lines 70-84)

The Python loop walks `vars(other)` in field-declaration order and dispatches
on the runtime type of each value: int fields are added, Counter / Ignores
fields are merged via their update methods, and anything else falls to the
branch `for j, u in v.items()` - which raises AttributeError for the str
field display_name and the list field children, since neither has an items
method.  The runtime type dispatch is embedded as a tagged union. -/

/-- Runtime value of one ScopeInfo field, as Python isinstance sees it. -/
inductive FieldVal where
  | vStr (s : String)
  | vInt (i : Int)
  | vCounter (c : Counter)
  | vIgnores (ig : Ignores)
  | vListNat (l : List Nat)
deriving DecidableEq

/-- One iteration of the update loop, dispatching on the type of the value
`v` taken from `other` exactly as the isinstance chain does. -/
def updateField (sv v : FieldVal) : Except String FieldVal :=
  match v, sv with
  | .vInt b, .vInt a => Except.ok (.vInt (a + b))
  | .vCounter b, .vCounter a => Except.ok (.vCounter (Counter.update a b))
  | .vIgnores b, .vIgnores a => Except.ok (.vIgnores (Ignores.update a b))
  | .vStr _, _ => Except.error "AttributeError: str object has no attribute items"
  | .vListNat _, _ => Except.error "AttributeError: list object has no attribute items"
  | _, _ => Except.error "TypeError: mismatched field kinds"

/-- ScopeInfo.update: line_start becomes the minimum first, then every other
field is processed in declaration order (line_start is skipped by the loop),
short-circuiting at the first raised exception as Python does. -/
def ScopeInfo.update (self other : ScopeInfo) : Except String ScopeInfo := do
  let ls := min self.line_start other.line_start
  let f1 ← updateField (.vStr self.display_name) (.vStr other.display_name)
  let f2 ← updateField (.vInt self.block_count) (.vInt other.block_count)
  let f4 ← updateField (.vInt self.line_count) (.vInt other.line_count)
  let f5 ← updateField (.vInt self.token_count) (.vInt other.token_count)
  let f6 ← updateField (.vInt self.comment_total_length) (.vInt other.comment_total_length)
  let f7 ← updateField (.vCounter self.keyword_count) (.vCounter other.keyword_count)
  let f8 ← updateField (.vCounter self.op_count) (.vCounter other.op_count)
  let f9 ← updateField (.vIgnores self.ignores) (.vIgnores other.ignores)
  let f10 ← updateField (.vListNat self.children) (.vListNat other.children)
  match f1, f2, f4, f5, f6, f7, f8, f9, f10 with
  | .vStr dn, .vInt bc, .vInt lc, .vInt tc, .vInt ctl, .vCounter kc,
      .vCounter oc, .vIgnores ig, .vListNat ch =>
    pure { display_name := dn, block_count := bc, line_start := ls,
           line_count := lc, token_count := tc, comment_total_length := ctl,
           keyword_count := kc, op_count := oc, ignores := ig, children := ch }
  | _, _, _, _, _, _, _, _, _ => Except.error "unreachable"

/-! ## FileInfo.make (python_info.py lines 126-149)

The missing collaborators PythonFile and Block are modelled from the spec.
-/

/-- Modelled from the spec: the BlockRange record of spec section 3, supplied
by the excluded block-discovery component (the `Block` class is not under
src/).  `begin` and `dedent` are token indices, `dedent` inclusive; children
are indices into the block list. -/
structure Block where
  begin : Nat
  dedent : Nat
  display_name : String
  children : List Nat
deriving DecidableEq, Inhabited

/-- Modelled from the spec: the part of PythonFile that FileInfo.make reads -
the full ordered token sequence and the discovered block list in source
order (the `PythonFile` class is not under src/). -/
structure PyFile where
  tokens : List TokenInfo
  blocks : List Block
deriving DecidableEq, Inhabited

/-- The while loop of `fill` (python_info.py lines 132-138).  `kids` is
consumed from the front, which is what popping from the end of the reversed
child list does.  When the cursor has reached the begin of the next pending
child, the cursor jumps to that child's dedent index (note: not dedent + 1)
and nothing is merged; otherwise the token under the cursor is applied
directly and the cursor advances. -/
def fillGo (pf : PyFile) (b e : Nat) (kids : List Nat) (info : ScopeInfo) : ScopeInfo :=
  if _h : b < e then
    match kids with
    | k :: rest =>
      let blk := pf.blocks.getD k default
      if blk.begin ≤ b then fillGo pf blk.dedent e rest info
      else fillGo pf (b + 1) e (k :: rest) (info.apply_token (pf.tokens.getD b default))
    | [] => fillGo pf (b + 1) e [] (info.apply_token (pf.tokens.getD b default))
  else info
termination_by (kids.length, e - b)
decreasing_by
  · exact Prod.Lex.left _ _ (Nat.lt_succ_self _)
  · exact Prod.Lex.right _ (by omega)
  · exact Prod.Lex.right _ (by omega)

/-- The function `fill` inside FileInfo.make (lines 128-138): records the
child list on the stats object, then runs the cursor loop from begin to end
(exclusive). -/
def fill (pf : PyFile) (info : ScopeInfo) (b e : Nat) (kids : List Nat) : ScopeInfo :=
  fillGo pf b e kids { info with children := kids }

/-- The FileInfo dataclass (python_info.py lines 114-117). -/
structure FileInfo where
  blocks : List ScopeInfo := []
  top : ScopeInfo := {}
deriving DecidableEq, Inhabited

/-- FileInfo.make (python_info.py lines 126-149).  The Python iterates the
blocks in reverse source order, but each block's stats object is filled
independently of every other (fill never reads another ScopeInfo), so the
reversed iteration is embedded as a map.  The top scope is filled over the
range [0, N) where N = len(pf.blocks), with range(N) as its child list,
exactly as line 146 does; its display_name is then set and its children
cleared. -/
def FileInfo.make (pf : PyFile) : FileInfo :=
  let blocks := pf.blocks.map fun blk =>
    { fill pf {} blk.begin (blk.dedent + 1) blk.children with
        display_name := blk.display_name }
  let N := pf.blocks.length
  let top0 := fill pf {} 0 N (List.range N)
  { blocks := blocks
    top := { top0 with display_name := "(module)", children := [] } }

end Linter

namespace Linter

def demoTok (n : Int) : TokenInfo := { type := Tok.NAME, string := "x", startLine := n, endLine := n }

def demoPF1 : PyFile :=
  { tokens := [demoTok 1, demoTok 2, demoTok 3, demoTok 4, demoTok 5]
    blocks :=
      [{ begin := 0, dedent := 4, display_name := "outer", children := [1] },
       { begin := 1, dedent := 3, display_name := "inner", children := [] }] }

/-! ## Serialization (AsData._asdata, ScopeInfo.asdict, FileInfo.asdict)

python_info.py lines 24-28, 104-124 and 152-172.  Serialized values are a
small JSON-like inductive; dicts are insertion-ordered association lists.
-/

/-- A serialized ScopeInfo field value as produced by `_asdata`.  The generic
duck-typed `_asdata` is embedded specialized at the five field shapes a
ScopeInfo actually holds: int, str, Counter (dict of int), Ignores (dict of
dict of int) and list of int. -/
inductive DVal where
  | dInt (i : Int)
  | dStr (s : String)
  | dCtr (l : List (String × Int))
  | dIgn (l : List (String × List (String × Int)))
  | dIntList (l : List Int)
deriving DecidableEq, Inhabited

/-- Python truthiness of a serialized value (`if (dv := _asdata(v))`). -/
def truthyD : DVal → Bool
  | .dInt i => i != 0
  | .dStr s => s != ""
  | .dCtr l => !l.isEmpty
  | .dIgn l => !l.isEmpty
  | .dIntList l => !l.isEmpty

/-- Serialization `_asdata` of a Counter: the dict comprehension drops falsy (zero)
values. -/
def counterAsData (c : Counter) : List (String × Int) :=
  (c.map fun kv => (kv.1, (kv.2 : Int))).filter fun kv => kv.2 != 0

/-- Serialization `_asdata` of an Ignores: a dict of the three serialized counters, the
empty (falsy) ones dropped. -/
def ignoresAsData (ig : Ignores) : List (String × List (String × Int)) :=
  ([("mypy", counterAsData ig.mypy), ("noqa", counterAsData ig.noqa),
    ("type", counterAsData ig.type)]).filter fun kv => !kv.2.isEmpty

/-- Serialization `_asdata` of a ScopeInfo: dataclass fields in declaration order
serialized recursively, then the dict comprehension drops falsy values
(lists keep their elements unfiltered; ints and strings are kept as is). -/
def scopeInfoAsData (s : ScopeInfo) : List (String × DVal) :=
  ([("display_name", DVal.dStr s.display_name),
    ("block_count", DVal.dInt s.block_count),
    ("line_start", DVal.dInt s.line_start),
    ("line_count", DVal.dInt s.line_count),
    ("token_count", DVal.dInt s.token_count),
    ("comment_total_length", DVal.dInt s.comment_total_length),
    ("keyword_count", DVal.dCtr (counterAsData s.keyword_count)),
    ("op_count", DVal.dCtr (counterAsData s.op_count)),
    ("ignores", DVal.dIgn (ignoresAsData s.ignores)),
    ("children", DVal.dIntList (s.children.map fun n => (n : Int)))]).filter
    fun kv => truthyD kv.2

/-- The dict `dc.asdict(ScopeInfo())` (ScopeInfo._default, lines 104-107): the raw,
unfiltered default dict each serialized value is compared against. -/
def scopeInfoDefaultDict : List (String × DVal) :=
  [("display_name", DVal.dStr ""),
   ("block_count", DVal.dInt 0),
   ("line_start", DVal.dInt (-1)),
   ("line_count", DVal.dInt 0),
   ("token_count", DVal.dInt 0),
   ("comment_total_length", DVal.dInt 0),
   ("keyword_count", DVal.dCtr []),
   ("op_count", DVal.dCtr []),
   ("ignores", DVal.dIgn [("mypy", []), ("noqa", []), ("type", [])]),
   ("children", DVal.dIntList [])]

/-- ScopeInfo.asdict (python_info.py lines 109-111): serialize, then drop
every key that is in the omission list or whose value equals its default. -/
def ScopeInfo.asdict (s : ScopeInfo) (omitl : List String) : List (String × DVal) :=
  (scopeInfoAsData s).filter fun kv =>
    !omitl.contains kv.1 && (scopeInfoDefaultDict.lookup kv.1 != some kv.2)

/-- The dict FileInfo.asdict returns: a top entry and a blocks entry, either
absent when its value is falsy. -/
structure FileDict where
  top : Option (List (String × DVal)) := none
  blocks : Option (List (List (String × DVal))) := none
deriving DecidableEq, Inhabited

/-- FileInfo.asdict (python_info.py lines 119-124): the top dict and the list
of block dicts, each entry dropped when falsy (empty). -/
def FileInfo.asdict (fi : FileInfo) (omitl : List String) : FileDict :=
  let t := fi.top.asdict omitl
  let bs := fi.blocks.map fun b => b.asdict omitl
  { top := if t.isEmpty then none else some t
    blocks := if bs.isEmpty then none else some bs }

/-- OMIT_FIELDS (multi_file.py line 10): the default omission list. -/
def OMIT_FIELDS : List String := ["children", "keyword_count", "op_count"]

/-- MultiFile._file_info (multi_file.py lines 39-41): the serialized per-file
statistics with the default omission list. -/
def _file_info (pf : PyFile) : FileDict :=
  (FileInfo.make pf).asdict OMIT_FIELDS

/-! ## multi_linter.py: AllFiles.info (lines 34-44)

AllFiles.info computes every file record inside a generator consumed by one
dict comprehension, with no exception handling anywhere: the first file whose
record computation raises aborts the whole comprehension.  The per-file
record is abstracted to the outgoing-import list, the only fallible part; the
error-propagation shape (mapM over Except) is the faithful embedding of the
unprotected comprehension. -/

/-- Per-file record: every import line split, flattened and sorted, as
outgoing_imports produces it.  A malformed line raises, failing the record. -/
def fileRecord (importLines : List String) : Except String (List String) :=
  (importLines.mapM _split_import).map fun ls => pySorted ls.flatten

/-- AllFiles.info: build (module, record) pairs for every file in order; an
exception while processing one file propagates and aborts the whole run. -/
def AllFiles.info (process : String → Except String (List String)) (files : List String) :
    Except String (List (String × List String)) :=
  files.mapM fun f => (process f).map fun r => (f, r)

/-- A two-file demonstration set: the first file holds one malformed import
line (its from-clause does not start with the word from), the second a good
one. -/
def demoFiles : List (String × List String) :=
  [("proj.a", ["frum x import y"]), ("proj.b", ["import math"])]

def demoProcess (f : String) : Except String (List String) :=
  fileRecord ((demoFiles.lookup f).getD [])

end Linter

namespace Linter

/-! ## Helper lemmas on counters and string search -/

theorem Counter.get_add (c : Counter) (k : String) (n : Nat) :
    (c.add k n).get k = c.get k + n := by
  induction c with
  | nil => simp [Counter.add, Counter.get]
  | cons kv rest ih =>
    obtain ⟨k', v⟩ := kv
    by_cases h : k' = k <;> simp [Counter.add, Counter.get, h, ih]

theorem Counter.get_add_ne (c : Counter) (k k2 : String) (n : Nat) (h : k2 ≠ k) :
    (c.add k2 n).get k = c.get k := by
  induction c with
  | nil => simp [Counter.add, Counter.get, h]
  | cons kv rest ih =>
    obtain ⟨k', v⟩ := kv
    by_cases h' : k' = k2
    · subst h'
      simp [Counter.add, Counter.get, h]
    · simp [Counter.add, Counter.get, h', ih]

theorem Counter.get_incr (c : Counter) (k : String) :
    (c.incr k).get k = c.get k + 1 := Counter.get_add c k 1

theorem Counter.get_incr_ne (c : Counter) (k k2 : String) (h : k2 ≠ k) :
    (c.incr k2).get k = c.get k := Counter.get_add_ne c k k2 1 h

theorem pyPartition_sep_of_not_contains (s m : String) (h : pyContains s m = false) :
    (pyPartition s m).2.1 = "" := by
  unfold pyContains at h
  unfold pyPartition pyPartitionL
  cases hf : subFind m.data s.data with
  | none => simp [hf]
  | some i => rw [hf] at h; simp at h

theorem extractIgnores_of_not_contains (line m : String) (h : pyContains line m = false) :
    extractIgnores line m = none := by
  have hsep := pyPartition_sep_of_not_contains line m h
  simp [extractIgnores, hsep]

theorem apply_line_of_no_markers (ig : Ignores) (line : String)
    (h1 : pyContains line "# mypy: " = false)
    (h2 : pyContains line "# noqa: " = false)
    (h3 : pyContains line "# type: ignore[" = false) :
    ig.apply_line line = ig := by
  simp [Ignores.apply_line,
    extractIgnores_of_not_contains line _ h1,
    extractIgnores_of_not_contains line _ h2,
    extractIgnores_of_not_contains line _ h3]

end Linter

namespace Linter

theorem extract_c7_mypy :
    extractIgnores "# type: ignore[arg-type, no-untyped-def]" "# mypy: " = none := by decide

theorem extract_c7_noqa :
    extractIgnores "# type: ignore[arg-type, no-untyped-def]" "# noqa: " = none := by decide

theorem extract_c7_type :
    extractIgnores "# type: ignore[arg-type, no-untyped-def]" "# type: ignore[" =
      some ["arg-type", "no-untyped-def"] := by decide

theorem extract_c7_empty_mypy :
    extractIgnores "# type: ignore[]" "# mypy: " = none := by decide

theorem extract_c7_empty_noqa :
    extractIgnores "# type: ignore[]" "# noqa: " = none := by decide

theorem extract_c7_empty_type :
    extractIgnores "# type: ignore[]" "# type: ignore[" = some [EMPTY_IGNORES] := by decide

/-- C7: the comment "# type: ignore[arg-type, no-untyped-def]" increments the
type-suppression histogram at arg-type and at no-untyped-def by one each (the
other suppression histograms untouched); the bare "# type: ignore[]"
increments the single placeholder code by one; a comment containing none of
the three recognized markers leaves every suppression histogram unchanged. -/
theorem c7_suppression :
    (∀ ig : Ignores,
      ((ig.apply_line "# type: ignore[arg-type, no-untyped-def]").type.get "arg-type"
          = ig.type.get "arg-type" + 1) ∧
      ((ig.apply_line "# type: ignore[arg-type, no-untyped-def]").type.get "no-untyped-def"
          = ig.type.get "no-untyped-def" + 1) ∧
      (ig.apply_line "# type: ignore[arg-type, no-untyped-def]").mypy = ig.mypy ∧
      (ig.apply_line "# type: ignore[arg-type, no-untyped-def]").noqa = ig.noqa) ∧
    (∀ ig : Ignores,
      (ig.apply_line "# type: ignore[]").type.get EMPTY_IGNORES
          = ig.type.get EMPTY_IGNORES + 1) ∧
    (∀ (ig : Ignores) (line : String),
      pyContains line "# mypy: " = false → pyContains line "# noqa: " = false →
      pyContains line "# type: ignore[" = false → ig.apply_line line = ig) := by
  refine ⟨fun ig => ?_, fun ig => ?_, fun ig line h1 h2 h3 => ?_⟩
  · have happ : ig.apply_line "# type: ignore[arg-type, no-untyped-def]" =
        { ig with type := (ig.type.incr "arg-type").incr "no-untyped-def" } := by
      simp [Ignores.apply_line, extract_c7_mypy, extract_c7_noqa, extract_c7_type,
        Counter.updateList, Counter.incr]
    refine ⟨?_, ?_, ?_, ?_⟩ <;> rw [happ]
    · rw [Counter.get_incr_ne _ _ _ (by decide), Counter.get_incr]
    · rw [Counter.get_incr, Counter.get_incr_ne _ _ _ (by decide)]
  · have happ : ig.apply_line "# type: ignore[]" =
        { ig with type := ig.type.incr EMPTY_IGNORES } := by
      simp [Ignores.apply_line, extract_c7_empty_mypy, extract_c7_empty_noqa,
        extract_c7_empty_type, Counter.updateList, Counter.incr]
    rw [happ]
    exact Counter.get_incr _ _
  · exact apply_line_of_no_markers ig line h1 h2 h3

/-- Witness for C7: the marker-free comment "# hello" leaves a concrete
Ignores value unchanged. -/
theorem c7_suppression_witness :
    Ignores.apply_line { type := [("x", 2)] } "# hello" = { type := [("x", 2)] } :=
  c7_suppression.2.2 { type := [("x", 2)] } "# hello" (by decide) (by decide) (by decide)

/-- C3: the merge operation ScopeInfo.update never completes on any two
ScopeInfo values: its duck-typed field loop reaches the str field
display_name first and raises AttributeError, so no merged result exists
(and in particular merge cannot be associative or commutative as the spec
claims). -/
theorem c3_update_always_raises (a b : ScopeInfo) :
    ScopeInfo.update a b =
      Except.error "AttributeError: str object has no attribute items" := rfl

/-- C4: the six import round-trip examples, resolved inside package pkg. -/
theorem c4_import_examples :
    splitResolve ["pkg"] "import math" = Except.ok ["math"] ∧
    splitResolve ["pkg"] "import math.sqrt" = Except.ok ["math.sqrt"] ∧
    splitResolve ["pkg"] "from math import sqrt" = Except.ok ["math.sqrt"] ∧
    splitResolve ["pkg"] "from . import seven" = Except.ok ["pkg.seven"] ∧
    splitResolve ["pkg"] "from .seven import Seven, ONE" =
      Except.ok ["pkg.seven.Seven", "pkg.seven.ONE"] ∧
    splitResolve ["pkg"] "from x import *" = Except.ok [] := by
  refine ⟨by decide, by decide, by decide, by decide, by decide, by decide⟩

end Linter

namespace Linter

theorem intercalate_dot_singleton (x : String) : String.intercalate "." [x] = x := rfl

/-- Counterexample for C5: with one ancestor package (depth 1) and the
reference "...x" (dot count 3, so d - 1 = 2 exceeds the depth), to_absolute
silently returns the bare over-truncated path "x" instead of raising. -/
theorem c5_counterexample :
    pyLen "...x" - pyLen (pyLstripDots "...x") - 1 = 2 ∧
    (["pkg"] : List String).length = 1 ∧
    to_absolute ["pkg"] "...x" = "x" := ⟨by decide, by decide, by decide⟩

/-- C5 amended: whenever d - 1 reaches or exceeds the ancestor depth, the
resolution silently drops every ancestor component and returns the bare
remaining path, rather than failing loudly. -/
theorem c5_overdeep_silent (pp : List String) (m : String)
    (hdot : pyStartswith m "." = true)
    (hdepth : pp.length ≤ pyLen m - pyLen (pyLstripDots m) - 1) :
    to_absolute pp m = pyLstripDots m := by
  have hkept :
      (if pyLen m - pyLen (pyLstripDots m) = 1 then pp
       else pp.take (pp.length - (pyLen m - pyLen (pyLstripDots m) - 1))) = [] := by
    by_cases hd : pyLen m - pyLen (pyLstripDots m) = 1
    · rw [if_pos hd]
      rw [hd] at hdepth
      exact List.length_eq_zero.mp (Nat.le_zero.mp (by simpa using hdepth))
    · rw [if_neg hd]
      have h0 : pp.length - (pyLen m - pyLen (pyLstripDots m) - 1) = 0 := by omega
      rw [h0, List.take_zero]
  simp only [to_absolute, hdot, not_true_eq_false, if_false, hkept, List.nil_append,
    intercalate_dot_singleton]

/-- Witness for C5 amended at the concrete counterexample input. -/
theorem c5_overdeep_silent_witness : to_absolute ["pkg"] "...x" = pyLstripDots "...x" :=
  c5_overdeep_silent ["pkg"] "...x" (by decide) (by decide)

/-- Counterexample for C8: the line "import math # *" contains the wildcard
character (inside its trailing comment), yet the splitter contributes the
entry math, not zero entries. -/
theorem c8_counterexample :
    pyContains "import math # *" "*" = true ∧
    _split_import "import math # *" = Except.ok ["math"] ∧
    (Except.ok ["math"] : Except String (List String)) ≠ Except.ok [] :=
  ⟨by decide, by decide, by decide⟩

/-- C8 amended: an import line containing the wildcard character before the
comment marker contributes zero entries, regardless of the rest of the
line. -/
theorem c8_wildcard (line : String)
    (h : pyContains (pyPartition line "#").1 "*" = true) :
    _split_import line = Except.ok [] := by
  simp only [_split_import, h, if_true]

/-- Witness for C8 amended at a concrete wildcard import line. -/
theorem c8_wildcard_witness : _split_import "from x import *" = Except.ok [] :=
  c8_wildcard "from x import *" (by decide)

/-- Counterexample for C9: apply_token on a structural indent token and on a
plain name token both change the operator histogram (under the keys indent
and name), though neither is an operator or punctuation token. -/
theorem c9_counterexample :
    (ScopeInfo.apply_token {}
        { type := Tok.INDENT, string := "  ", startLine := 2, endLine := 2 }).op_count
      = [("indent", 1)] ∧
    (ScopeInfo.apply_token {}
        { type := Tok.NAME, string := "foo", startLine := 1, endLine := 1 }).op_count
      = [("name", 1)] ∧
    ({} : ScopeInfo).op_count = [] := ⟨by decide, by decide, by decide⟩

/-- C9 amended: apply_token increments the operator histogram for every
token whatsoever - under the canonical symbol when the token type is an
exact operator type, and under the lowercased token type name (name,
comment, indent, dedent, newline, endmarker, encoding, ...) otherwise. -/
theorem c9_opcount_every_token (info : ScopeInfo) (tok : TokenInfo) :
    (info.apply_token tok).op_count =
      info.op_count.incr ((INVERSE_TOKEN_TYPES tok.type).getD (tokNameLower tok.type)) := by
  simp only [ScopeInfo.apply_token]
  split_ifs <;> rfl

end Linter

namespace Linter

def demoPF2 : PyFile :=
  { tokens := [demoTok 1, demoTok 2, demoTok 3, demoTok 4, demoTok 5]
    blocks := [{ begin := 1, dedent := 3, display_name := "f", children := [] }] }

/-- C1 evaluated: in a five-token file whose outer block spans token indices
0..4 with one child spanning 1..3, the attribution pass gives the outer
block direct token_count 3 (tokens 0, 3 and 4 - the cursor skip lands ON the
child's dedent index 3, so token 3 is applied to the child and to the parent)
and never merges the child's finalized stats into the parent; the claimed
partition sum is 3 + 3 = 6 over a range of 5 tokens. -/
theorem c1_partition_violated :
    (FileInfo.make demoPF1).blocks.map ScopeInfo.token_count = [3, 3] ∧
    ((demoPF1.blocks.getD 0 default).dedent + 1) - (demoPF1.blocks.getD 0 default).begin = 5 ∧
    (3 + 3 : Int) ≠ 5 := by
  refine ⟨?_, by decide, by decide⟩
  simp +decide [FileInfo.make, fill, fillGo, demoPF1, demoTok, ScopeInfo.apply_token]

/-- C2 evaluated: in a five-token file with one block (token indices 1..3),
FileInfo.make computes the whole-file scope over the range [0, N) with
N = len(blocks) = 1, not over the five tokens of the file: the top scope
directly counts a single token, and top-plus-descendants covers 4 of the 5
tokens. -/
theorem c2_top_range_violated :
    (FileInfo.make demoPF2).top.token_count = 1 ∧
    (FileInfo.make demoPF2).blocks.map ScopeInfo.token_count = [3] ∧
    demoPF2.tokens.length = 5 ∧
    (1 + 3 : Int) ≠ 5 := by
  refine ⟨?_, ?_, by decide, by decide⟩ <;>
    simp +decide [FileInfo.make, fill, fillGo, demoPF2, demoTok, ScopeInfo.apply_token,
      List.range_succ]

/-- C6 evaluated: processing the two-file set where proj.a holds one
malformed import line, AllFiles.info propagates the AssertionError and the
whole run yields a single error - no per-file error marker, and no record
for the well-formed proj.b, although proj.b alone processes fine. -/
theorem c6_abort_eval :
    AllFiles.info demoProcess ["proj.a", "proj.b"] =
      Except.error "AssertionError: frum x import y" ∧
    demoProcess "proj.b" = Except.ok ["math"] := ⟨by decide, by decide⟩

theorem lookup_filter_none {α : Type} (l : List (String × α)) (k : String)
    (p : String × α → Bool) (hp : ∀ kv, p kv = true → kv.1 ≠ k) :
    (l.filter p).lookup k = none := by
  induction l with
  | nil => rfl
  | cons kv rest ih =>
    by_cases h : p kv = true
    · rw [List.filter_cons_of_pos h]
      have hne : (k == kv.1) = false := by
        have := hp kv h
        simp only [beq_eq_false_iff_ne]
        exact fun he => this he.symm
      simp [List.lookup, hne, ih]
    · rw [List.filter_cons_of_neg (by simpa using h)]
      exact ih

theorem asdict_omitted_lookup (s : ScopeInfo) (omitl : List String) (k : String)
    (hk : omitl.contains k = true) :
    (s.asdict omitl).lookup k = none := by
  apply lookup_filter_none
  intro kv hkv heq
  rw [heq] at hkv
  simp at hkv
  exact hkv.1 (by simpa using hk)

/-- C10: the serialized per-file statistics under the default omission list
never contain the keys children, keyword_count or op_count - neither in the
whole-file (top) entry nor in any per-block entry. -/
theorem c10_omitted (pf : PyFile) (k : String) (hk : OMIT_FIELDS.contains k = true) :
    ((_file_info pf).top.getD []).lookup k = none ∧
    ∀ d ∈ ((_file_info pf).blocks.getD []), d.lookup k = none := by
  constructor
  · show (((FileInfo.make pf).asdict OMIT_FIELDS).top.getD []).lookup k = none
    rw [FileInfo.asdict]
    dsimp only
    by_cases he : ((FileInfo.make pf).top.asdict OMIT_FIELDS).isEmpty
    · rw [if_pos he]
      rfl
    · rw [if_neg he]
      exact asdict_omitted_lookup _ _ _ hk
  · intro d hd
    have hd' : d ∈ (((FileInfo.make pf).asdict OMIT_FIELDS).blocks.getD []) := hd
    rw [FileInfo.asdict] at hd'
    dsimp only at hd'
    by_cases he : ((FileInfo.make pf).blocks.map fun b => b.asdict OMIT_FIELDS).isEmpty
    · rw [if_pos he] at hd'
      exact absurd hd' (List.not_mem_nil d)
    · rw [if_neg he] at hd'
      obtain ⟨b, _, rfl⟩ := List.mem_map.mp hd'
      exact asdict_omitted_lookup _ _ _ hk

/-- Witness for C10: the key children is absent from the serialized top
entry of a concrete file. -/
theorem c10_omitted_witness :
    ((_file_info demoPF1).top.getD []).lookup "children" = none :=
  (c10_omitted demoPF1 "children" (by decide)).1

end Linter
